import Mathlib

/-!
Shallow embedding of `main.go` from the route53Update repository: a
dynamic-DNS updater that resolves the caller's public IP, locates the
Route53 hosted zone whose name exactly equals the (trailing-dot
normalized) domain, reads the current A record value, and issues a
single UPSERT change when the values differ.

External effects (the ipify call, AWS config loading, and the three
Route53 client operations) are modelled as fields of an environment /
client record holding the responses the external services would give.
`mainRun` is the embedding of `main`: it returns the exit status, the
stdout lines printed, the trace of change-resource-record-sets (write)
calls issued, and the trace of domain strings handed to the provider
call wrappers.
-/

namespace Route53Update

/-- DNS record types (subset of the AWS SDK `types.RRType` enumeration;
only equality with `A` is ever tested by the program). -/
inductive RRType where
  | A
  | AAAA
  | CNAME
  | NS
  | SOA
  | TXT
  | MX
deriving DecidableEq, Repr

/-- Change actions of the AWS SDK `types.ChangeAction` enumeration. -/
inductive ChangeAction where
  | CREATE
  | DELETE
  | UPSERT
deriving DecidableEq, Repr

/-- `types.HostedZone`, restricted to the fields the program reads
(`Name` and `Id`; the Go code dereferences both pointers). -/
structure HostedZone where
  Name : String
  Id : String
deriving DecidableEq, Repr

/-- `types.ResourceRecord`: a single record value. -/
structure ResourceRecord where
  Value : String
deriving DecidableEq, Repr

/-- `types.ResourceRecordSet`, restricted to the fields the program
touches. -/
structure ResourceRecordSet where
  Name : String
  «Type» : RRType
  ResourceRecords : List ResourceRecord
  TTL : Int
deriving DecidableEq, Repr

/-- `types.Change`: one change of a change batch. -/
structure Change where
  Action : ChangeAction
  ResourceRecordSet : ResourceRecordSet
deriving DecidableEq, Repr

/-- `types.ChangeBatch`. -/
structure ChangeBatch where
  Changes : List Change
deriving DecidableEq, Repr

/-- `route53.ChangeResourceRecordSetsInput`. -/
structure ChangeResourceRecordSetsInput where
  ChangeBatch : ChangeBatch
  HostedZoneId : String
deriving DecidableEq, Repr

/-- `types.ChangeInfo`, restricted to the `Id` the program prints. -/
structure ChangeInfo where
  Id : String
deriving DecidableEq, Repr

/-- `route53.ChangeResourceRecordSetsOutput`. -/
structure ChangeResourceRecordSetsOutput where
  ChangeInfo : ChangeInfo
deriving DecidableEq, Repr

/-- Result of running a piece of Go code that returns `(α, error)` but
may also hit a runtime panic (out-of-range index): `ok` models a nil
error, `fail` a non-nil error with its message, `panicked` a Go runtime
panic. -/
inductive GoResult (α : Type) where
  | ok : α → GoResult α
  | fail : String → GoResult α
  | panicked : GoResult α
deriving DecidableEq, Repr

/-- The Route53 client, modelled by the responses the provider gives to
each operation. `ListHostedZonesByName` receives the `DNSName` field of
the request, `ListResourceRecordSets` the `HostedZoneId`,
`ChangeResourceRecordSets` the full input. `Except.error` carries the
message of a non-nil Go error. -/
structure Route53Client where
  ListHostedZonesByName : String → Except String (List HostedZone)
  ListResourceRecordSets : String → Except String (List ResourceRecordSet)
  ChangeResourceRecordSets :
    ChangeResourceRecordSetsInput → Except String ChangeResourceRecordSetsOutput

/-- `GetHostedZone` (main.go lines 19-35): lists hosted zones by name
and scans for the zone whose `Name` exactly equals `domain`; a list
failure is wrapped, an exhausted scan yields the not-found error. -/
def GetHostedZone (client : Route53Client) (domain : String) :
    Except String HostedZone :=
  match client.ListHostedZonesByName domain with
  | .error err => .error ("Failed to get hosted zones: " ++ err)
  | .ok zones =>
    match zones.find? (fun zone => zone.Name == domain) with
    | some zone => .ok zone
    | none => .error ("Can\x27t match domain " ++ domain ++ " to zone")

/-- `GetARecIp` (main.go lines 40-56): lists the zone's record sets and
returns `*rec.ResourceRecords[0].Value` of the first record whose name
equals `domain` and whose type is `A`. Indexing `ResourceRecords[0]`
on an empty slice is a Go runtime panic, modelled by
`GoResult.panicked`. A list failure is returned unwrapped. -/
def GetARecIp (client : Route53Client) (zone : String) (domain : String) :
    GoResult String :=
  match client.ListResourceRecordSets zone with
  | .error err => .fail err
  | .ok recs =>
    match recs.find? (fun rec => rec.Name == domain && rec.«Type» == RRType.A) with
    | some rec =>
      match rec.ResourceRecords with
      | r :: _ => .ok r.Value
      | [] => .panicked
    | none => .fail "Could not find A rec for top level name"

/-- The `ChangeResourceRecordSetsInput` that `UpdateIp` (main.go lines
61-84) constructs: a change batch holding a single UPSERT of an A
record named `domain` with the single value `ip` and TTL 300. -/
def UpdateIpRequest (zone : String) (domain : String) (ip : String) :
    ChangeResourceRecordSetsInput :=
  { ChangeBatch :=
      { Changes :=
          [{ Action := ChangeAction.UPSERT,
             ResourceRecordSet :=
               { Name := domain,
                 «Type» := RRType.A,
                 ResourceRecords := [{ Value := ip }],
                 TTL := 300 } }] },
    HostedZoneId := zone }

/-- `UpdateIp` (main.go lines 61-84): submits the constructed change
batch against the zone and passes the provider's response through. -/
def UpdateIp (client : Route53Client) (zone : String) (domain : String)
    (ip : String) : Except String ChangeResourceRecordSetsOutput :=
  client.ChangeResourceRecordSets (UpdateIpRequest zone domain ip)

/-- How the process terminated: normal return from `main` (exit status
zero), `log.Fatalf` (non-zero exit with the formatted message), or a Go
runtime panic. -/
inductive ExitStatus where
  | success
  | fatal (msg : String)
  | panicked
deriving DecidableEq, Repr

/-- Observable outcome of one run: termination status, the lines printed
to stdout, the trace of change-resource-record-sets (write) calls
issued to the provider, and the trace of domain strings passed to the
zone-locate / record-read / record-write wrappers, in call order. -/
structure RunOutput where
  exit : ExitStatus
  stdout : List String
  writes : List ChangeResourceRecordSetsInput
  domainsUsed : List String
deriving DecidableEq, Repr

/-- The environment a run consumes: `Args` is the full `os.Args`
(program name first), `GetIp` the ipify response, and
`LoadDefaultConfig` the result of loading the AWS config, fused with
`route53.NewFromConfig` so that a successful load yields the client. -/
structure Env where
  Args : List String
  GetIp : Except String String
  LoadDefaultConfig : Except String Route53Client

/-- `main` (main.go lines 86-133), as a function from the environment to
the observable run outcome. `os.Args[1]` on a short argument list is a
Go runtime panic. -/
def mainRun (env : Env) : RunOutput :=
  match env.Args[1]? with
  | none => { exit := .panicked, stdout := [], writes := [], domainsUsed := [] }
  | some arg =>
    let domain := arg ++ "."
    match env.GetIp with
    | .error e =>
      { exit := .fatal ("Failed getting current ip: " ++ e),
        stdout := [], writes := [], domainsUsed := [] }
    | .ok ip =>
      let out1 := ["Current ip address: " ++ ip]
      match env.LoadDefaultConfig with
      | .error e =>
        { exit := .fatal ("Unable to load AWS config: " ++ e),
          stdout := out1, writes := [], domainsUsed := [] }
      | .ok client =>
        match GetHostedZone client domain with
        | .error e =>
          { exit := .fatal ("Failed to find zone: " ++ e),
            stdout := out1, writes := [], domainsUsed := [domain] }
        | .ok zone =>
          let out2 := out1 ++ ["Found zone: " ++ zone.Id]
          match GetARecIp client zone.Id domain with
          | .panicked =>
            { exit := .panicked, stdout := out2, writes := [],
              domainsUsed := [domain, domain] }
          | .fail e =>
            { exit := .fatal ("Error trying to check configured ip: " ++ e),
              stdout := out2, writes := [], domainsUsed := [domain, domain] }
          | .ok configuredIp =>
            let out3 := out2 ++ ["Address in route53 is " ++ configuredIp]
            if ip == configuredIp then
              { exit := .success,
                stdout := out3 ++ ["Address already up to date, done"],
                writes := [], domainsUsed := [domain, domain] }
            else
              match UpdateIp client zone.Id domain ip with
              | .error e =>
                { exit := .fatal ("Error trying to update record: " ++ e),
                  stdout := out3,
                  writes := [UpdateIpRequest zone.Id domain ip],
                  domainsUsed := [domain, domain, domain] }
              | .ok res =>
                { exit := .success,
                  stdout := out3 ++ ["Updated. Change: " ++ res.ChangeInfo.Id],
                  writes := [UpdateIpRequest zone.Id domain ip],
                  domainsUsed := [domain, domain, domain] }

/-- A concrete provider client used by the witnesses: one hosted zone
named `example.com.` with id `Z123`, one A record at the apex holding
`203.0.113.7`, and a change endpoint answering with change id `C999`. -/
def wClient : Route53Client :=
  { ListHostedZonesByName := fun _ =>
      .ok [{ Name := "example.com.", Id := "Z123" },
           { Name := "sub.example.com.", Id := "Z456" }],
    ListResourceRecordSets := fun _ =>
      .ok [{ Name := "example.com.", «Type» := RRType.A,
             ResourceRecords := [{ Value := "203.0.113.7" }], TTL := 300 }],
    ChangeResourceRecordSets := fun _ =>
      .ok { ChangeInfo := { Id := "C999" } } }

/-- A concrete environment whose resolved IP (`203.0.113.9`) differs
from the configured record value (`203.0.113.7`): the write path. -/
def wEnvWrite : Env :=
  { Args := ["route53Update", "example.com"],
    GetIp := .ok "203.0.113.9",
    LoadDefaultConfig := .ok wClient }

/-- A concrete environment whose resolved IP equals the configured
record value: the no-op path. -/
def wEnvNoop : Env :=
  { Args := ["route53Update", "example.com"],
    GetIp := .ok "203.0.113.7",
    LoadDefaultConfig := .ok wClient }

/-- A provider client like `wClient` except that the change endpoint
rejects every request (e.g. missing permissions). -/
def wClientReject : Route53Client :=
  { ListHostedZonesByName := fun _ =>
      .ok [{ Name := "example.com.", Id := "Z123" }],
    ListResourceRecordSets := fun _ =>
      .ok [{ Name := "example.com.", «Type» := RRType.A,
             ResourceRecords := [{ Value := "203.0.113.7" }], TTL := 300 }],
    ChangeResourceRecordSets := fun _ => .error "AccessDenied" }

/-- Environment with an IP mismatch whose write call is rejected by the
provider. -/
def wEnvReject : Env :=
  { Args := ["route53Update", "example.com"],
    GetIp := .ok "203.0.113.9",
    LoadDefaultConfig := .ok wClientReject }

/-- A provider client whose only matching A record has an empty value
list. -/
def wClientEmptyRec : Route53Client :=
  { ListHostedZonesByName := fun _ =>
      .ok [{ Name := "example.com.", Id := "Z123" }],
    ListResourceRecordSets := fun _ =>
      .ok [{ Name := "example.com.", «Type» := RRType.A,
             ResourceRecords := [], TTL := 300 }],
    ChangeResourceRecordSets := fun _ =>
      .ok { ChangeInfo := { Id := "C999" } } }

/-- A provider client whose matching A record carries two values; only
the first is ever read. -/
def wClientTwoVals : Route53Client :=
  { ListHostedZonesByName := fun _ =>
      .ok [{ Name := "example.com.", Id := "Z123" }],
    ListResourceRecordSets := fun _ =>
      .ok [{ Name := "example.com.", «Type» := RRType.A,
             ResourceRecords := [{ Value := "203.0.113.7" }, { Value := "203.0.113.8" }],
             TTL := 300 }],
    ChangeResourceRecordSets := fun _ =>
      .ok { ChangeInfo := { Id := "C999" } } }

/-- Environment invoked with no positional argument (`os.Args` holds
only the program name). -/
def wEnvNoArgs : Env :=
  { Args := ["route53Update"],
    GetIp := .ok "203.0.113.9",
    LoadDefaultConfig := .ok wClient }

/-- The record-set predicate of the `GetARecIp` scan: name equals the
domain and the type is `A`. The first record of a listing satisfying it
is the one the scan selects. -/
theorem find?_first_rrmatch (domain : String) (pre post : List ResourceRecordSet)
    (rec : ResourceRecordSet)
    (hpre : ∀ r ∈ pre, ¬(r.Name = domain ∧ r.«Type» = RRType.A))
    (hname : rec.Name = domain) (htype : rec.«Type» = RRType.A) :
    (pre ++ rec :: post).find?
      (fun r => r.Name == domain && r.«Type» == RRType.A) = some rec := by
  rw [List.find?_append]
  have hnone : pre.find? (fun r => r.Name == domain && r.«Type» == RRType.A) = none := by
    rw [List.find?_eq_none]
    intro r hr hcontra
    simp only [Bool.and_eq_true, beq_iff_eq] at hcontra
    exact hpre r hr hcontra
  rw [hnone, Option.none_or]
  exact List.find?_cons_of_pos post (by simp [hname, htype])

/-- C2: in every run whose resolved public IP equals the A-record value
read from the provider, `main` issues zero change-resource-record-sets
calls, exits with success status, and prints the up-to-date message. -/
theorem noop_when_ip_matches
    (env : Env) (arg ip : String) (client : Route53Client) (zone : HostedZone)
    (harg : env.Args[1]? = some arg)
    (hip : env.GetIp = .ok ip)
    (hcfg : env.LoadDefaultConfig = .ok client)
    (hzone : GetHostedZone client (arg ++ ".") = .ok zone)
    (hrec : GetARecIp client zone.Id (arg ++ ".") = .ok ip) :
    (mainRun env).writes = [] ∧
    (mainRun env).exit = .success ∧
    "Address already up to date, done" ∈ (mainRun env).stdout := by
  simp [mainRun, harg, hip, hcfg, hzone, hrec]

/-- Witness for C2 on the concrete no-op environment. -/
theorem noop_when_ip_matches_witness :
    (mainRun wEnvNoop).writes = [] ∧
    (mainRun wEnvNoop).exit = .success ∧
    "Address already up to date, done" ∈ (mainRun wEnvNoop).stdout :=
  noop_when_ip_matches wEnvNoop "example.com" "203.0.113.7" wClient
    { Name := "example.com.", Id := "Z123" } rfl rfl rfl rfl rfl

/-- C3: over any successful zone listing, `GetHostedZone` returns a
zone of the listing whose name equals the domain exactly when one
exists, and fails with the not-found error when no zone's name equals
the domain exactly — prefix matches in the listing notwithstanding. -/
theorem zone_locator_exact_match
    (client : Route53Client) (domain : String) (zones : List HostedZone)
    (hlist : client.ListHostedZonesByName domain = .ok zones) :
    ((∃ z ∈ zones, z.Name = domain) →
      ∃ z, GetHostedZone client domain = .ok z ∧ z ∈ zones ∧ z.Name = domain) ∧
    ((∀ z ∈ zones, z.Name ≠ domain) →
      GetHostedZone client domain =
        .error ("Can\x27t match domain " ++ domain ++ " to zone")) := by
  constructor
  · rintro ⟨z, hz, hname⟩
    cases hfind : zones.find? (fun zone => zone.Name == domain) with
    | none =>
      exact absurd (by simpa using hname)
        (List.find?_eq_none.mp hfind z hz)
    | some w =>
      exact ⟨w, by simp only [GetHostedZone, hlist, hfind],
        List.mem_of_find?_eq_some hfind,
        by simpa using List.find?_some hfind⟩
  · intro hall
    cases hfind : zones.find? (fun zone => zone.Name == domain) with
    | none => simp only [GetHostedZone, hlist, hfind]
    | some w =>
      exact absurd (by simpa using List.find?_some hfind)
        (hall w (List.mem_of_find?_eq_some hfind))

/-- Witness for C3 on the concrete two-zone listing (exact match plus a
prefix-matching subdomain zone). -/
theorem zone_locator_exact_match_witness :
    ((∃ z ∈ [({ Name := "example.com.", Id := "Z123" } : HostedZone),
             { Name := "sub.example.com.", Id := "Z456" }], z.Name = "example.com.") →
      ∃ z, GetHostedZone wClient "example.com." = .ok z ∧
        z ∈ [({ Name := "example.com.", Id := "Z123" } : HostedZone),
             { Name := "sub.example.com.", Id := "Z456" }] ∧
        z.Name = "example.com.") ∧
    ((∀ z ∈ [({ Name := "example.com.", Id := "Z123" } : HostedZone),
             { Name := "sub.example.com.", Id := "Z456" }], z.Name ≠ "example.com.") →
      GetHostedZone wClient "example.com." =
        .error ("Can\x27t match domain " ++ "example.com." ++ " to zone")) :=
  zone_locator_exact_match wClient "example.com."
    [{ Name := "example.com.", Id := "Z123" },
     { Name := "sub.example.com.", Id := "Z456" }] rfl

/-- C4: over any successful record listing, `GetARecIp` returns the
first value of the first record set whose name equals the domain and
whose type is `A` (later values and later matching records are
ignored), and fails with the not-found error when no record set matches
both conditions. -/
theorem record_reader_first_value
    (client : Route53Client) (zone domain : String)
    (recs pre post : List ResourceRecordSet) (rec : ResourceRecordSet)
    (v : ResourceRecord) (vs : List ResourceRecord)
    (hlist : client.ListResourceRecordSets zone = .ok recs) :
    (recs = pre ++ rec :: post →
      (∀ r ∈ pre, ¬(r.Name = domain ∧ r.«Type» = RRType.A)) →
      rec.Name = domain → rec.«Type» = RRType.A →
      rec.ResourceRecords = v :: vs →
      GetARecIp client zone domain = .ok v.Value) ∧
    ((∀ r ∈ recs, ¬(r.Name = domain ∧ r.«Type» = RRType.A)) →
      GetARecIp client zone domain =
        .fail "Could not find A rec for top level name") := by
  constructor
  · intro hsplit hpre hname htype hvals
    have hfind := find?_first_rrmatch domain pre post rec hpre hname htype
    rw [← hsplit] at hfind
    simp only [GetARecIp, hlist, hfind, hvals]
  · intro hall
    cases hfind : recs.find? (fun rec => rec.Name == domain && rec.«Type» == RRType.A) with
    | none => simp only [GetARecIp, hlist, hfind]
    | some w =>
      have hw := List.find?_some hfind
      simp only [Bool.and_eq_true, beq_iff_eq] at hw
      exact absurd hw (hall w (List.mem_of_find?_eq_some hfind))

/-- Witness for C4 on a concrete listing whose first matching A record
holds two values; the first is returned. -/
theorem record_reader_first_value_witness :
    (([({ Name := "example.com.", «Type» := RRType.A,
          ResourceRecords := [{ Value := "203.0.113.7" }, { Value := "203.0.113.8" }],
          TTL := 300 } : ResourceRecordSet)] : List ResourceRecordSet) =
        [] ++ ({ Name := "example.com.", «Type» := RRType.A,
                 ResourceRecords := [{ Value := "203.0.113.7" }, { Value := "203.0.113.8" }],
                 TTL := 300 } : ResourceRecordSet) :: [] →
      (∀ r ∈ ([] : List ResourceRecordSet),
        ¬(r.Name = "example.com." ∧ r.«Type» = RRType.A)) →
      ({ Name := "example.com.", «Type» := RRType.A,
         ResourceRecords := [{ Value := "203.0.113.7" }, { Value := "203.0.113.8" }],
         TTL := 300 } : ResourceRecordSet).Name = "example.com." →
      ({ Name := "example.com.", «Type» := RRType.A,
         ResourceRecords := [{ Value := "203.0.113.7" }, { Value := "203.0.113.8" }],
         TTL := 300 } : ResourceRecordSet).«Type» = RRType.A →
      ({ Name := "example.com.", «Type» := RRType.A,
         ResourceRecords := [{ Value := "203.0.113.7" }, { Value := "203.0.113.8" }],
         TTL := 300 } : ResourceRecordSet).ResourceRecords =
        ({ Value := "203.0.113.7" } : ResourceRecord) :: [{ Value := "203.0.113.8" }] →
      GetARecIp wClientTwoVals "Z123" "example.com." = .ok ({ Value := "203.0.113.7" } : ResourceRecord).Value) ∧
    ((∀ r ∈ [({ Name := "example.com.", «Type» := RRType.A,
                ResourceRecords := [{ Value := "203.0.113.7" }, { Value := "203.0.113.8" }],
                TTL := 300 } : ResourceRecordSet)],
        ¬(r.Name = "example.com." ∧ r.«Type» = RRType.A)) →
      GetARecIp wClientTwoVals "Z123" "example.com." =
        .fail "Could not find A rec for top level name") :=
  record_reader_first_value wClientTwoVals "Z123" "example.com."
    [{ Name := "example.com.", «Type» := RRType.A,
       ResourceRecords := [{ Value := "203.0.113.7" }, { Value := "203.0.113.8" }],
       TTL := 300 }]
    []
    []
    { Name := "example.com.", «Type» := RRType.A,
      ResourceRecords := [{ Value := "203.0.113.7" }, { Value := "203.0.113.8" }],
      TTL := 300 }
    { Value := "203.0.113.7" } [{ Value := "203.0.113.8" }] rfl

/-- C8: when the first record set matching the name-and-type-A scan has
an empty value list, `GetARecIp` hits the `ResourceRecords[0]` index
out of range — a Go runtime panic — instead of returning the not-found
error. -/
theorem record_reader_panics_on_empty_values
    (client : Route53Client) (zone domain : String)
    (recs pre post : List ResourceRecordSet) (rec : ResourceRecordSet)
    (hlist : client.ListResourceRecordSets zone = .ok recs)
    (hsplit : recs = pre ++ rec :: post)
    (hpre : ∀ r ∈ pre, ¬(r.Name = domain ∧ r.«Type» = RRType.A))
    (hname : rec.Name = domain) (htype : rec.«Type» = RRType.A)
    (hempty : rec.ResourceRecords = []) :
    GetARecIp client zone domain = .panicked := by
  have hfind := find?_first_rrmatch domain pre post rec hpre hname htype
  rw [← hsplit] at hfind
  simp only [GetARecIp, hlist, hfind, hempty]

/-- Witness for C8 on the concrete client whose apex A record has an
empty value list. -/
theorem record_reader_panics_on_empty_values_witness :
    GetARecIp wClientEmptyRec "Z123" "example.com." = .panicked :=
  record_reader_panics_on_empty_values wClientEmptyRec "Z123" "example.com."
    [{ Name := "example.com.", «Type» := RRType.A, ResourceRecords := [], TTL := 300 }]
    []
    []
    { Name := "example.com.", «Type» := RRType.A, ResourceRecords := [], TTL := 300 }
    rfl rfl (by simp) rfl rfl rfl

/-- C9: when `os.Args` holds no positional argument, `main` panics on
the `os.Args[1]` index before any step runs: no output, no provider
call, no fatal-logging error path. -/
theorem no_argument_panics (env : Env) (h : env.Args[1]? = none) :
    mainRun env =
      { exit := .panicked, stdout := [], writes := [], domainsUsed := [] } := by
  simp [mainRun, h]

/-- Witness for C9 on the concrete argument-less environment. -/
theorem no_argument_panics_witness :
    mainRun wEnvNoArgs =
      { exit := .panicked, stdout := [], writes := [], domainsUsed := [] } :=
  no_argument_panics wEnvNoArgs rfl

/-- C1 as stated is false: in the concrete mismatch run below the
provider rejects the change request, so the single upsert call is
issued but the process terminates fatally, not with success status. -/
theorem upsert_on_mismatch_counterexample :
    wEnvReject.GetIp = .ok "203.0.113.9" ∧
    GetARecIp wClientReject "Z123" "example.com." = .ok "203.0.113.7" ∧
    ("203.0.113.9" : String) ≠ "203.0.113.7" ∧
    (mainRun wEnvReject).writes = [UpdateIpRequest "Z123" "example.com." "203.0.113.9"] ∧
    (mainRun wEnvReject).exit ≠ ExitStatus.success :=
  ⟨rfl, by decide, by decide, by decide, by decide⟩

/-- C1 amended: in every run whose resolved public IP differs from the
A-record value read from the provider, `main` issues exactly one
change call, whose batch holds a single UPSERT of an A record named
with the trailing-dot domain, a single value equal to the new IP, and
TTL 300; when the provider accepts the change, the run exits with
success status printing the provider's change-tracking id. -/
theorem upsert_on_mismatch
    (env : Env) (arg ip configuredIp : String) (client : Route53Client)
    (zone : HostedZone)
    (harg : env.Args[1]? = some arg)
    (hip : env.GetIp = .ok ip)
    (hcfg : env.LoadDefaultConfig = .ok client)
    (hzone : GetHostedZone client (arg ++ ".") = .ok zone)
    (hrec : GetARecIp client zone.Id (arg ++ ".") = .ok configuredIp)
    (hne : ip ≠ configuredIp) :
    (mainRun env).writes = [UpdateIpRequest zone.Id (arg ++ ".") ip] ∧
    (UpdateIpRequest zone.Id (arg ++ ".") ip).ChangeBatch.Changes =
      [{ Action := ChangeAction.UPSERT,
         ResourceRecordSet :=
           { Name := arg ++ ".", «Type» := RRType.A,
             ResourceRecords := [{ Value := ip }], TTL := 300 } }] ∧
    (∀ out, UpdateIp client zone.Id (arg ++ ".") ip = .ok out →
      (mainRun env).exit = .success ∧
      ("Updated. Change: " ++ out.ChangeInfo.Id) ∈ (mainRun env).stdout) := by
  have hbe : (ip == configuredIp) = false := by simp [hne]
  refine ⟨?_, ?_, ?_⟩
  · cases hw : UpdateIp client zone.Id (arg ++ ".") ip with
    | error e => simp [mainRun, harg, hip, hcfg, hzone, hrec, hbe, hw]
    | ok out => simp [mainRun, harg, hip, hcfg, hzone, hrec, hbe, hw]
  · simp [UpdateIpRequest]
  · intro out hw
    simp [mainRun, harg, hip, hcfg, hzone, hrec, hbe, hw]

/-- Witness for the amended C1 on the concrete mismatch environment. -/
theorem upsert_on_mismatch_witness :
    (mainRun wEnvWrite).writes = [UpdateIpRequest "Z123" ("example.com" ++ ".") "203.0.113.9"] ∧
    (UpdateIpRequest "Z123" ("example.com" ++ ".") "203.0.113.9").ChangeBatch.Changes =
      [{ Action := ChangeAction.UPSERT,
         ResourceRecordSet :=
           { Name := "example.com" ++ ".", «Type» := RRType.A,
             ResourceRecords := [{ Value := "203.0.113.9" }], TTL := 300 } }] ∧
    (∀ out, UpdateIp wClient "Z123" ("example.com" ++ ".") "203.0.113.9" = .ok out →
      (mainRun wEnvWrite).exit = .success ∧
      ("Updated. Change: " ++ out.ChangeInfo.Id) ∈ (mainRun wEnvWrite).stdout) :=
  upsert_on_mismatch wEnvWrite "example.com" "203.0.113.9" "203.0.113.7" wClient
    { Name := "example.com.", Id := "Z123" } rfl rfl rfl rfl rfl (by decide)

/-- C5: a change-resource-record-sets call is issued only in runs where
every earlier step succeeded: the argument was read, IP resolution,
config loading, the zone lookup and the record read all returned
without error, and the compared values differed. Contrapositively, a
failure in any earlier step halts the run with no write ever issued. -/
theorem write_requires_all_prior_steps (env : Env)
    (h : (mainRun env).writes ≠ []) :
    ∃ arg ip client zone configuredIp,
      env.Args[1]? = some arg ∧
      env.GetIp = .ok ip ∧
      env.LoadDefaultConfig = .ok client ∧
      GetHostedZone client (arg ++ ".") = .ok zone ∧
      GetARecIp client zone.Id (arg ++ ".") = .ok configuredIp ∧
      ip ≠ configuredIp := by
  cases harg : env.Args[1]? with
  | none => simp [mainRun, harg] at h
  | some arg =>
    cases hip : env.GetIp with
    | error e => simp [mainRun, harg, hip] at h
    | ok ip =>
      cases hcfg : env.LoadDefaultConfig with
      | error e => simp [mainRun, harg, hip, hcfg] at h
      | ok client =>
        cases hzone : GetHostedZone client (arg ++ ".") with
        | error e => simp [mainRun, harg, hip, hcfg, hzone] at h
        | ok zone =>
          cases hrec : GetARecIp client zone.Id (arg ++ ".") with
          | panicked => simp [mainRun, harg, hip, hcfg, hzone, hrec] at h
          | fail e => simp [mainRun, harg, hip, hcfg, hzone, hrec] at h
          | ok configuredIp =>
            by_cases heq : ip = configuredIp
            · simp [mainRun, harg, hip, hcfg, hzone, hrec, heq] at h
            · exact ⟨arg, ip, client, zone, configuredIp,
                rfl, rfl, rfl, hzone, hrec, heq⟩

/-- Witness for C5 on the concrete mismatch environment, whose run does
issue a write. -/
theorem write_requires_all_prior_steps_witness :
    ∃ arg ip client zone configuredIp,
      wEnvWrite.Args[1]? = some arg ∧
      wEnvWrite.GetIp = .ok ip ∧
      wEnvWrite.LoadDefaultConfig = .ok client ∧
      GetHostedZone client (arg ++ ".") = .ok zone ∧
      GetARecIp client zone.Id (arg ++ ".") = .ok configuredIp ∧
      ip ≠ configuredIp :=
  write_requires_all_prior_steps wEnvWrite (by decide)

/-- C6: the process exits with status zero exactly on the successful
paths (the up-to-date no-op and the accepted write), and every failure
— IP resolution, config loading, zone lookup, record read, or record
write — terminates it through the fatal-logging path (non-zero status)
with a message naming the failed step and carrying the underlying
cause; the termination policy is the same `fatal` outcome for every
error kind. -/
theorem exit_status_policy (env : Env) (arg : String)
    (harg : env.Args[1]? = some arg) :
    (∀ e, env.GetIp = .error e →
      (mainRun env).exit = .fatal ("Failed getting current ip: " ++ e)) ∧
    (∀ ip e, env.GetIp = .ok ip → env.LoadDefaultConfig = .error e →
      (mainRun env).exit = .fatal ("Unable to load AWS config: " ++ e)) ∧
    (∀ ip client e, env.GetIp = .ok ip → env.LoadDefaultConfig = .ok client →
      GetHostedZone client (arg ++ ".") = .error e →
      (mainRun env).exit = .fatal ("Failed to find zone: " ++ e)) ∧
    (∀ ip client zone e, env.GetIp = .ok ip → env.LoadDefaultConfig = .ok client →
      GetHostedZone client (arg ++ ".") = .ok zone →
      GetARecIp client zone.Id (arg ++ ".") = .fail e →
      (mainRun env).exit = .fatal ("Error trying to check configured ip: " ++ e)) ∧
    (∀ ip client zone, env.GetIp = .ok ip → env.LoadDefaultConfig = .ok client →
      GetHostedZone client (arg ++ ".") = .ok zone →
      GetARecIp client zone.Id (arg ++ ".") = .ok ip →
      (mainRun env).exit = .success) ∧
    (∀ ip client zone configuredIp e, env.GetIp = .ok ip →
      env.LoadDefaultConfig = .ok client →
      GetHostedZone client (arg ++ ".") = .ok zone →
      GetARecIp client zone.Id (arg ++ ".") = .ok configuredIp →
      ip ≠ configuredIp →
      UpdateIp client zone.Id (arg ++ ".") ip = .error e →
      (mainRun env).exit = .fatal ("Error trying to update record: " ++ e)) ∧
    (∀ ip client zone configuredIp out, env.GetIp = .ok ip →
      env.LoadDefaultConfig = .ok client →
      GetHostedZone client (arg ++ ".") = .ok zone →
      GetARecIp client zone.Id (arg ++ ".") = .ok configuredIp →
      ip ≠ configuredIp →
      UpdateIp client zone.Id (arg ++ ".") ip = .ok out →
      (mainRun env).exit = .success) := by
  refine ⟨?_, ?_, ?_, ?_, ?_, ?_, ?_⟩
  · intro e hip
    simp [mainRun, harg, hip]
  · intro ip e hip hcfg
    simp [mainRun, harg, hip, hcfg]
  · intro ip client e hip hcfg hzone
    simp [mainRun, harg, hip, hcfg, hzone]
  · intro ip client zone e hip hcfg hzone hrec
    simp [mainRun, harg, hip, hcfg, hzone, hrec]
  · intro ip client zone hip hcfg hzone hrec
    simp [mainRun, harg, hip, hcfg, hzone, hrec]
  · intro ip client zone configuredIp e hip hcfg hzone hrec hne hw
    have hbe : (ip == configuredIp) = false := by simp [hne]
    simp [mainRun, harg, hip, hcfg, hzone, hrec, hbe, hw]
  · intro ip client zone configuredIp out hip hcfg hzone hrec hne hw
    have hbe : (ip == configuredIp) = false := by simp [hne]
    simp [mainRun, harg, hip, hcfg, hzone, hrec, hbe, hw]

/-- Witness for C6 on the concrete mismatch environment. -/
theorem exit_status_policy_witness :
    (∀ e, wEnvWrite.GetIp = .error e →
      (mainRun wEnvWrite).exit = .fatal ("Failed getting current ip: " ++ e)) ∧
    (∀ ip e, wEnvWrite.GetIp = .ok ip → wEnvWrite.LoadDefaultConfig = .error e →
      (mainRun wEnvWrite).exit = .fatal ("Unable to load AWS config: " ++ e)) ∧
    (∀ ip client e, wEnvWrite.GetIp = .ok ip → wEnvWrite.LoadDefaultConfig = .ok client →
      GetHostedZone client ("example.com" ++ ".") = .error e →
      (mainRun wEnvWrite).exit = .fatal ("Failed to find zone: " ++ e)) ∧
    (∀ ip client zone e, wEnvWrite.GetIp = .ok ip → wEnvWrite.LoadDefaultConfig = .ok client →
      GetHostedZone client ("example.com" ++ ".") = .ok zone →
      GetARecIp client zone.Id ("example.com" ++ ".") = .fail e →
      (mainRun wEnvWrite).exit = .fatal ("Error trying to check configured ip: " ++ e)) ∧
    (∀ ip client zone, wEnvWrite.GetIp = .ok ip → wEnvWrite.LoadDefaultConfig = .ok client →
      GetHostedZone client ("example.com" ++ ".") = .ok zone →
      GetARecIp client zone.Id ("example.com" ++ ".") = .ok ip →
      (mainRun wEnvWrite).exit = .success) ∧
    (∀ ip client zone configuredIp e, wEnvWrite.GetIp = .ok ip →
      wEnvWrite.LoadDefaultConfig = .ok client →
      GetHostedZone client ("example.com" ++ ".") = .ok zone →
      GetARecIp client zone.Id ("example.com" ++ ".") = .ok configuredIp →
      ip ≠ configuredIp →
      UpdateIp client zone.Id ("example.com" ++ ".") ip = .error e →
      (mainRun wEnvWrite).exit = .fatal ("Error trying to update record: " ++ e)) ∧
    (∀ ip client zone configuredIp out, wEnvWrite.GetIp = .ok ip →
      wEnvWrite.LoadDefaultConfig = .ok client →
      GetHostedZone client ("example.com" ++ ".") = .ok zone →
      GetARecIp client zone.Id ("example.com" ++ ".") = .ok configuredIp →
      ip ≠ configuredIp →
      UpdateIp client zone.Id ("example.com" ++ ".") ip = .ok out →
      (mainRun wEnvWrite).exit = .success) :=
  exit_status_policy wEnvWrite "example.com" rfl

/-- C7: every domain string handed to the zone-locate, record-read and
record-write wrappers — and the record name inside every submitted
change — is the positional argument with a single trailing period
appended, unmodified across the steps. -/
theorem domain_normalized_once (env : Env) (arg : String)
    (harg : env.Args[1]? = some arg) :
    (mainRun env).domainsUsed.all (fun d => d == arg ++ ".") = true ∧
    (mainRun env).writes.all (fun w =>
      w.ChangeBatch.Changes.all
        (fun c => c.ResourceRecordSet.Name == arg ++ ".")) = true := by
  cases hip : env.GetIp with
  | error e => simp [mainRun, harg, hip]
  | ok ip =>
    cases hcfg : env.LoadDefaultConfig with
    | error e => simp [mainRun, harg, hip, hcfg]
    | ok client =>
      cases hzone : GetHostedZone client (arg ++ ".") with
      | error e => simp [mainRun, harg, hip, hcfg, hzone]
      | ok zone =>
        cases hrec : GetARecIp client zone.Id (arg ++ ".") with
        | panicked => simp [mainRun, harg, hip, hcfg, hzone, hrec]
        | fail e => simp [mainRun, harg, hip, hcfg, hzone, hrec]
        | ok configuredIp =>
          by_cases heq : ip = configuredIp
          · simp [mainRun, harg, hip, hcfg, hzone, hrec, heq]
          · have hbe : (ip == configuredIp) = false := by simp [heq]
            cases hw : UpdateIp client zone.Id (arg ++ ".") ip with
            | error e =>
              simp [mainRun, harg, hip, hcfg, hzone, hrec, hbe, hw, UpdateIpRequest]
            | ok out =>
              simp [mainRun, harg, hip, hcfg, hzone, hrec, hbe, hw, UpdateIpRequest]

/-- Witness for C7 on the concrete mismatch environment. -/
theorem domain_normalized_once_witness :
    (mainRun wEnvWrite).domainsUsed.all (fun d => d == "example.com" ++ ".") = true ∧
    (mainRun wEnvWrite).writes.all (fun w =>
      w.ChangeBatch.Changes.all
        (fun c => c.ResourceRecordSet.Name == "example.com" ++ ".")) = true :=
  domain_normalized_once wEnvWrite "example.com" rfl

/-- C10: every change batch a run submits to the provider holds exactly
one change, and that change's action is UPSERT — no DELETE or CREATE
action is ever constructed. -/
theorem only_single_upsert_batches (env : Env)
    (req : ChangeResourceRecordSetsInput)
    (h : req ∈ (mainRun env).writes) :
    req.ChangeBatch.Changes.length = 1 ∧
    req.ChangeBatch.Changes.all
      (fun c => c.Action == ChangeAction.UPSERT) = true := by
  cases harg : env.Args[1]? with
  | none => simp [mainRun, harg] at h
  | some arg =>
    cases hip : env.GetIp with
    | error e => simp [mainRun, harg, hip] at h
    | ok ip =>
      cases hcfg : env.LoadDefaultConfig with
      | error e => simp [mainRun, harg, hip, hcfg] at h
      | ok client =>
        cases hzone : GetHostedZone client (arg ++ ".") with
        | error e => simp [mainRun, harg, hip, hcfg, hzone] at h
        | ok zone =>
          cases hrec : GetARecIp client zone.Id (arg ++ ".") with
          | panicked => simp [mainRun, harg, hip, hcfg, hzone, hrec] at h
          | fail e => simp [mainRun, harg, hip, hcfg, hzone, hrec] at h
          | ok configuredIp =>
            by_cases heq : ip = configuredIp
            · simp [mainRun, harg, hip, hcfg, hzone, hrec, heq] at h
            · have hbe : (ip == configuredIp) = false := by simp [heq]
              cases hw : UpdateIp client zone.Id (arg ++ ".") ip with
              | error e =>
                simp only [mainRun, harg, hip, hcfg, hzone, hrec, hbe, hw] at h
                simp at h
                subst h
                simp [UpdateIpRequest]
              | ok out =>
                simp only [mainRun, harg, hip, hcfg, hzone, hrec, hbe, hw] at h
                simp at h
                subst h
                simp [UpdateIpRequest]

/-- Witness for C10 on the write issued by the concrete mismatch run. -/
theorem only_single_upsert_batches_witness :
    (UpdateIpRequest "Z123" "example.com." "203.0.113.9").ChangeBatch.Changes.length = 1 ∧
    (UpdateIpRequest "Z123" "example.com." "203.0.113.9").ChangeBatch.Changes.all
      (fun c => c.Action == ChangeAction.UPSERT) = true :=
  only_single_upsert_batches wEnvWrite
    (UpdateIpRequest "Z123" "example.com." "203.0.113.9") (by decide)

end Route53Update
